import Mathlib

/-!
Shallow embedding of `src/bot.py` (pybot-twitch): the credential manager
(`Bot.add_token`, `Bot.load_tokens`), the dynamic response store
(`Bot.add_response`, `Bot.load_responses`) and the command routing declared by
`MyComponent` (static commands `hi`/`hello`/`howdy`/`hey`, `socials`,
`addcommand` guarded by `is_elevated`).

Modelling conventions:
- Python exceptions are values of `PyErr`; a Python coroutine that may raise
  and mutates state is a Lean function returning `state × Except PyErr value`
  (state mutations performed before the raise are kept, as in Python).
- sqlite tables are association lists of row structures; the effect of each
  concrete SQL statement of the source is modelled from that statement's text.
- Python's `sqlite3.Cursor.execute` refuses SQL containing more than one
  statement (anything but whitespace/comments after the first top-level `;`)
  with `sqlite3.ProgrammingError`, before executing anything.  The queries of
  this source contain no comments and no `;` inside string literals, so the
  check is modelled as: the tail after the first `;` must be whitespace.
-/

namespace PybotTwitch

/-- Python-level exceptions that the embedded code can raise.  Each
constructor names the concrete exception of the source's execution:
`sqlite3.ProgrammingError`, `NameError`, `IndexError`, twitchio's token
validation failure, twitchio's `GuardFailure` from `commands.is_elevated`,
`MissingRequiredArgument`, and `CommandNotFound`. -/
inductive PyErr where
  | programmingError
  | nameError
  | indexError
  | validationError
  | guardFailure
  | missingArgument
  | commandNotFound
deriving DecidableEq, Repr

/-- Characters that Python's sqlite3 remaining-SQL check skips over. -/
def isSqlWhitespace (c : Char) : Bool :=
  c == ' ' || c == '\n' || c == '\t' || c == '\r'

/-- The characters after the first `;`, or `none` when there is no `;`. -/
def tailAfterFirstSemicolon : List Char → Option (List Char)
  | [] => none
  | c :: cs => if c == ';' then some cs else tailAfterFirstSemicolon cs

/-- Model of Python sqlite3's one-statement-at-a-time check, valid for SQL
with no comments and no `;` inside string literals (true of every query in
`src/bot.py`): the text after the first `;` must be all whitespace. -/
def sqliteSingleStatement (sql : String) : Bool :=
  match tailAfterFirstSemicolon sql.toList with
  | none => true
  | some rest => rest.all isSqlWhitespace

/-- Model of `connection.execute(sql, params)` through asqlite: if `sql`
holds more than one statement, `sqlite3.ProgrammingError` is raised and
nothing executes; otherwise the statement's effect is applied to the table. -/
def sqlite_execute {α : Type} (sql : String) (effect : α → α) (t : α) :
    Except PyErr α :=
  if sqliteSingleStatement sql then .ok (effect t) else .error .programmingError

/-- The token-upsert SQL of `Bot.add_token` (src/bot.py lines 52-59),
verbatim. -/
def tokens_upsert_sql : String :=
  "\n        INSERT INTO tokens (user_id, token, refresh)\n        VALUES (?, ?, ?)\n        ON CONFLICT(user_id)\n        DO UPDATE SET\n            token = excluded.token,\n            refresh = excluded.refresh;\n        "

/-- The response-upsert SQL of `Bot.add_response` (src/bot.py lines 87-94),
verbatim.  Note the `;` after `command = excluded.command`: the string holds
two statements. -/
def responses_upsert_sql : String :=
  "\n        INSERT INTO responses (command, response)\n        VALUES (?, ?)\n        ON CONFLICT(command)\n        DO UPDATE SET\n            command = excluded.command;\n            response = excluded.response;\n        "

/-- One row of the `tokens` table: `tokens(user_id TEXT PRIMARY KEY, token
TEXT NOT NULL, refresh TEXT NOT NULL)`. -/
structure TokenRow where
  user_id : String
  token : String
  refresh : String
deriving DecidableEq, Repr

/-- Effect of `INSERT INTO tokens ... ON CONFLICT(user_id) DO UPDATE SET
token = excluded.token, refresh = excluded.refresh`: replace the row keyed by
`r.user_id` when present, append otherwise. -/
def tokensUpsert (t : List TokenRow) (r : TokenRow) : List TokenRow :=
  if t.any (fun x => x.user_id == r.user_id) then
    t.map (fun x => if x.user_id == r.user_id then r else x)
  else t ++ [r]

/-- State relevant to the credential manager: `session` is the list of
credential pairs registered with twitchio's live session by
`super().add_token` (appended in call order), `tokens` is the sqlite `tokens`
table. -/
structure TokenState where
  session : List TokenRow
  tokens : List TokenRow
deriving DecidableEq, Repr

/-- `Bot.add_token(token, refresh)` (src/bot.py lines 47-65), parametrised by
the external identity validation `validate` performed inside
`super().add_token`:
1. `super().add_token` validates the pair upstream — on rejection the
   exception propagates and nothing changed; on success it registers the pair
   with the live session and yields the canonical `user_id`;
2. the token pair is upserted into the `tokens` table;
3. the validation payload's `user_id` is returned. -/
def add_token (validate : String → String → Except PyErr String)
    (st : TokenState) (token refresh : String) :
    TokenState × Except PyErr String :=
  match validate token refresh with
  | .error e => (st, .error e)
  | .ok uid =>
    let st1 : TokenState := ⟨st.session ++ [⟨uid, token, refresh⟩], st.tokens⟩
    match sqlite_execute tokens_upsert_sql
        (fun t => tokensUpsert t ⟨uid, token, refresh⟩) st1.tokens with
    | .error e => (st1, .error e)
    | .ok t2 => (⟨st1.session, t2⟩, .ok uid)

/-- The `for row in rows: await self.add_token(row["token"], row["refresh"])`
loop of `Bot.load_tokens`: there is no per-row exception handling, so the
first raising call aborts the loop. -/
def loadTokensGo (validate : String → String → Except PyErr String) :
    List TokenRow → TokenState → TokenState × Except PyErr Unit
  | [], st => (st, .ok ())
  | r :: rs, st =>
    match add_token validate st r.token r.refresh with
    | (st1, .error e) => (st1, .error e)
    | (st1, .ok _) => loadTokensGo validate rs st1

/-- `Bot.load_tokens` (src/bot.py lines 67-74): fetch every row of the
`tokens` table (a snapshot, taken before the loop), then call `add_token` on
each row's token pair. -/
def load_tokens (validate : String → String → Except PyErr String)
    (st : TokenState) : TokenState × Except PyErr Unit :=
  loadTokensGo validate st.tokens st

/-- One row of the `responses` table: `responses(command TEXT PRIMARY KEY,
response TEXT NOT NULL)`. -/
structure RespRow where
  command : String
  response : String
deriving DecidableEq, Repr

/-- Effect of the first statement of `responses_upsert_sql` (the only one
that would run, were the string accepted): `INSERT INTO responses ... ON
CONFLICT(command) DO UPDATE SET command = excluded.command` — on conflict it
only rewrites the key to itself, leaving `response` unchanged. -/
def responsesUpsert (t : List RespRow) (r : RespRow) : List RespRow :=
  if t.any (fun x => x.command == r.command) then t
  else t ++ [r]

/-- `Bot.add_response(command, response)` (src/bot.py lines 82-100):
executes `responses_upsert_sql` (which sqlite3 rejects as two statements,
raising `ProgrammingError` without writing), and — were the execute to
succeed — would then reach `return resp` where `resp` is an unbound name
(the assignment is commented out), raising `NameError`. -/
def add_response (t : List RespRow) (command response : String) :
    List RespRow × Except PyErr Unit :=
  match sqlite_execute responses_upsert_sql
      (fun rows => responsesUpsert rows ⟨command, response⟩) t with
  | .error e => (t, .error e)
  | .ok t2 => (t2, .error .nameError)

/-- The `for row in rows: await self.add_response(...)` loop of
`Bot.load_responses`: no per-row exception handling, the first raising call
aborts the loop. -/
def loadResponsesGo : List RespRow → List RespRow →
    List RespRow × Except PyErr Unit
  | [], t => (t, .ok ())
  | r :: rs, t =>
    match add_response t r.command r.response with
    | (t1, .error e) => (t1, .error e)
    | (t1, .ok _) => loadResponsesGo rs t1

/-- `Bot.load_responses` (src/bot.py lines 110-117): fetch every row of the
`responses` table (snapshot), then call `add_response` on each. -/
def load_responses (t : List RespRow) : List RespRow × Except PyErr Unit :=
  loadResponsesGo t t

/-- Split a character list at its first space: `some (before, after)`, or
`none` when there is no space. -/
def pySplitOnceChars : List Char → Option (List Char × List Char)
  | [] => none
  | c :: cs =>
    if c == ' ' then some ([], cs)
    else
      match pySplitOnceChars cs with
      | none => none
      | some (a, b) => some (c :: a, b)

/-- Python's `s.split(' ', 1)`: at most one split, at the first space. -/
def pySplitOnce (s : String) : List String :=
  match pySplitOnceChars s.toList with
  | none => [s]
  | some (a, b) => [⟨a⟩, ⟨b⟩]

/-- Outcome of dispatching one chat message: the `responses` table afterwards,
the chat replies sent, and the exception that escaped the handler (caught and
logged by twitchio's dispatcher — it never reaches chat nor crashes the
process), if any. -/
structure CmdResult where
  responses : List RespRow
  replies : List String
  raised : Option PyErr
deriving DecidableEq, Repr

/-- twitchio's `ctx.chatter.mention`: the chatter's name prefixed with an at
sign. -/
def mention (chatter : String) : String := "@" ++ chatter

/-- `MyComponent.addcommand` (src/bot.py lines 156-167), after the guard:
`content.split(' ', 1)` then `command = content_array[0]` and
`response = content_array[1]` — the latter raises `IndexError` when there was
no space, and this indexing sits outside the `try`.  The `try` wraps only
`self.bot.add_response`; on its exception the handler replies
"Failed to add command! :(". -/
def addcommand (t : List RespRow) (content : String) : CmdResult :=
  let content_array := pySplitOnce content
  let command := content_array.headD ""
  match content_array.get? 1 with
  | none => ⟨t, [], some .indexError⟩
  | some response =>
    match add_response t command response with
    | (t1, .error _) => ⟨t1, ["Failed to add command! :("], none⟩
    | (t1, .ok _) => ⟨t1, [], none⟩

/-- Command names registered by `MyComponent`: `hi` with aliases `hello`,
`howdy`, `hey`; the group `socials`; and `addcommand`. -/
def staticNames : List String :=
  ["hi", "hello", "howdy", "hey", "socials", "addcommand"]

/-- The command word of an invocation (the text after the `!` prefix):
everything up to the first space. -/
def commandNameOf (inv : List Char) : String :=
  match pySplitOnceChars inv with
  | none => ⟨inv⟩
  | some (a, _) => ⟨a⟩

/-- The remainder of an invocation after the command word, fed to
`addcommand`'s consume-rest parameter `content`. -/
def commandRestOf (inv : List Char) : String :=
  match pySplitOnceChars inv with
  | none => ""
  | some (_, b) => ⟨b⟩

/-- twitchio's command dispatch for an invocation (message text after the `!`
prefix), restricted to what `MyComponent` registers:
- `hi`/`hello`/`howdy`/`hey` reply with the greeting of `MyComponent.hi`;
- `socials` replies with the fixed link of `MyComponent.socials`;
- `addcommand` first runs the `commands.is_elevated` guard — on failure
  `GuardFailure` is raised (logged by the dispatcher, no reply) and the
  handler never runs; with an empty remainder the consume-rest parameter
  `content` is missing and `MissingRequiredArgument` is raised; otherwise the
  `addcommand` handler body runs on the remainder;
- any other name: no component defines a matching command and no dynamic
  fallback exists in the source (`whatis` is commented out), so
  `CommandNotFound` is raised and logged, with no reply and no store access. -/
def routeCmd (t : List RespRow) (elevated : Bool) (chatter : String)
    (inv : List Char) : CmdResult :=
  let name := commandNameOf inv
  if name = "hi" ∨ name = "hello" ∨ name = "howdy" ∨ name = "hey" then
    ⟨t, ["Hello " ++ mention chatter ++ "!"], none⟩
  else if name = "socials" then
    ⟨t, ["https://bsky.app/profile/tcurls.net"], none⟩
  else if name = "addcommand" then
    if elevated then
      let content := commandRestOf inv
      if content = "" then ⟨t, [], some .missingArgument⟩
      else addcommand t content
    else ⟨t, [], some .guardFailure⟩
  else ⟨t, [], some .commandNotFound⟩

/-- Dispatch of one inbound chat message: text not starting with the bot's
prefix `!` is not a command invocation and is ignored by command processing;
otherwise the rest of the text is routed. -/
def route (t : List RespRow) (elevated : Bool) (chatter : String)
    (text : String) : CmdResult :=
  match text.toList with
  | [] => ⟨t, [], none⟩
  | c :: rest =>
    if c == '!' then routeCmd t elevated chatter rest else ⟨t, [], none⟩

/-- A concrete external identity validation used in witnesses: rejects the
access token "badtok", resolves any other token `tok` to user id
`"id-" ++ tok`. -/
def exampleValidate : String → String → Except PyErr String :=
  fun token _refresh =>
    if token = "badtok" then .error .validationError
    else .ok ("id-" ++ token)

/-- A concrete external identity validation used in witnesses: accepts every
pair and always resolves it to user id "u1". -/
def constValidate : String → String → Except PyErr String :=
  fun _token _refresh => .ok "u1"

/-- The bad credential row used in the reload counterexample. -/
def badRow : TokenRow := ⟨"u1", "badtok", "r1"⟩

/-- The good credential row used in the reload counterexample. -/
def goodRow : TokenRow := ⟨"id-goodtok", "goodtok", "r2"⟩

/-! Helper lemmas. -/

/-- The token-upsert SQL is a single statement, so `execute` accepts it. -/
lemma tokens_sql_single : sqliteSingleStatement tokens_upsert_sql = true := rfl

/-- The response-upsert SQL holds two statements (stray `;` after
`command = excluded.command`), so `execute` rejects it. -/
lemma responses_sql_multi :
    sqliteSingleStatement responses_upsert_sql = false := rfl

/-- Every call to `add_response` raises `sqlite3.ProgrammingError` at the
`execute`, leaving the `responses` table untouched. -/
lemma add_response_eq (t : List RespRow) (c r : String) :
    add_response t c r = (t, .error .programmingError) := rfl

/-- Unfolding of `add_token` when the upstream validation succeeds. -/
lemma add_token_ok (v : String → String → Except PyErr String)
    (st : TokenState) (token refresh uid : String)
    (h : v token refresh = .ok uid) :
    add_token v st token refresh =
      (⟨st.session ++ [⟨uid, token, refresh⟩],
        tokensUpsert st.tokens ⟨uid, token, refresh⟩⟩, .ok uid) := by
  simp [add_token, h, sqlite_execute, tokens_sql_single]

/-- Filtering commutes with mapping when the map preserves the predicate. -/
lemma filter_map_comm {α : Type} (p : α → Bool) (f : α → α)
    (hf : ∀ x, p (f x) = p x) (l : List α) :
    (l.map f).filter p = (l.filter p).map f := by
  induction l with
  | nil => rfl
  | cons x xs ih =>
    cases hx : p x with
    | true => simp [List.filter_cons, hf x, hx, ih]
    | false => simp [List.filter_cons, hf x, hx, ih]

/-- Upserting a row into a table holding at most one row with its key leaves
exactly that row under the key. -/
lemma tokensUpsert_filter (t : List TokenRow) (uid tok ref : String)
    (h : (t.filter (fun x => x.user_id == uid)).length ≤ 1) :
    (tokensUpsert t ⟨uid, tok, ref⟩).filter (fun x => x.user_id == uid) =
      [⟨uid, tok, ref⟩] := by
  by_cases hany : t.any (fun x => x.user_id == uid) = true
  · have hup : tokensUpsert t ⟨uid, tok, ref⟩ =
        t.map (fun x => if x.user_id == uid then ⟨uid, tok, ref⟩ else x) := by
      simp [tokensUpsert, hany]
    rw [hup, filter_map_comm (fun x => x.user_id == uid)
      (fun x => if x.user_id == uid then ⟨uid, tok, ref⟩ else x)
      (by
        intro x
        cases hx : (x.user_id == uid) with
        | true => simp [hx]
        | false => simp [hx]) t]
    obtain ⟨x, hxmem, hxp⟩ := List.any_eq_true.mp hany
    have hmemf : x ∈ t.filter (fun x => x.user_id == uid) :=
      List.mem_filter.mpr ⟨hxmem, hxp⟩
    have hpos : 0 < (t.filter (fun x => x.user_id == uid)).length :=
      List.length_pos.mpr (fun hnil => by simp [hnil] at hmemf)
    have hlen : (t.filter (fun x => x.user_id == uid)).length = 1 :=
      Nat.le_antisymm h hpos
    obtain ⟨a, ha⟩ := List.length_eq_one.mp hlen
    have hpa : (a.user_id == uid) = true := by
      have : a ∈ t.filter (fun x => x.user_id == uid) := by simp [ha]
      exact (List.mem_filter.mp this).2
    have hpa2 : a.user_id = uid := by simpa using hpa
    rw [ha]
    simp [hpa2]
  · have hany2 : t.any (fun x => x.user_id == uid) = false :=
      Bool.not_eq_true _ ▸ Bool.of_not_eq_true hany
    have hup : tokensUpsert t ⟨uid, tok, ref⟩ = t ++ [⟨uid, tok, ref⟩] := by
      simp [tokensUpsert, hany]
    have hnil : t.filter (fun x => x.user_id == uid) = [] := by
      rw [List.filter_eq_nil_iff]
      intro a hamem hpa
      exact hany ((List.any_eq_true).mpr ⟨a, hamem, hpa⟩)
    rw [hup, List.filter_append, hnil]
    simp

/-- Upserting a row already present in a table whose `user_id` keys are
pairwise distinct leaves the table unchanged. -/
lemma tokensUpsert_mem (t : List TokenRow) (r : TokenRow) (hr : r ∈ t)
    (hpk : t.Pairwise fun a b => a.user_id ≠ b.user_id) :
    tokensUpsert t r = t := by
  have hany : t.any (fun x => x.user_id == r.user_id) = true :=
    List.any_eq_true.mpr ⟨r, hr, by simp⟩
  have hsym : Symmetric fun a b : TokenRow => a.user_id ≠ b.user_id :=
    fun a b hab hba => hab hba.symm
  have hid : ∀ x ∈ t, (if x.user_id == r.user_id then r else x) = x := by
    intro x hx
    by_cases hxr : x.user_id = r.user_id
    · have hxeq : x = r := by
        by_contra hne
        exact hpk.forall hsym hx hr hne hxr
      simp [hxeq]
    · simp [hxr]
  calc tokensUpsert t r
      = t.map (fun x => if x.user_id == r.user_id then r else x) := by
        simp [tokensUpsert, hany]
    _ = t := by
        rw [List.map_congr_left hid]
        simp

/-- Running the `load_tokens` loop over rows that each validate to their own
stored `user_id` and whose upsert is the identity: every row is re-registered
with the live session, in order, and the table is unchanged. -/
lemma loadTokensGo_identity (v : String → String → Except PyErr String)
    (rows : List TokenRow) (st : TokenState)
    (hval : ∀ r ∈ rows, v r.token r.refresh = .ok r.user_id)
    (hfix : ∀ r ∈ rows, tokensUpsert st.tokens r = st.tokens) :
    loadTokensGo v rows st = (⟨st.session ++ rows, st.tokens⟩, .ok ()) := by
  induction rows generalizing st with
  | nil => simp [loadTokensGo]
  | cons r rs ih =>
    have h1 := hval r (by simp)
    simp only [loadTokensGo, add_token_ok v st r.token r.refresh r.user_id h1]
    rw [hfix r (by simp)]
    have hstep := ih (⟨st.session ++ [r], st.tokens⟩ : TokenState)
      (fun x hx => hval x (List.mem_cons_of_mem r hx))
      (fun x hx => hfix x (List.mem_cons_of_mem r hx))
    rw [hstep]
    simp

/-- The `load_tokens` loop has no per-row exception handling: when every row
of a prefix validates and the next row fails validation, the loop stops at
the failing row, with the state exactly as after the prefix. -/
lemma loadTokensGo_abort (v : String → String → Except PyErr String)
    (pre post : List TokenRow) (bad : TokenRow) (e : PyErr)
    (hpre : ∀ x ∈ pre, ∃ u, v x.token x.refresh = .ok u)
    (hbad : v bad.token bad.refresh = .error e) (st : TokenState) :
    loadTokensGo v (pre ++ bad :: post) st =
      ((loadTokensGo v pre st).1, .error e) := by
  induction pre generalizing st with
  | nil =>
    simp [loadTokensGo, add_token, hbad]
  | cons a as ih =>
    obtain ⟨u, hu⟩ := hpre a (by simp)
    simp only [List.cons_append, loadTokensGo,
      add_token_ok v st a.token a.refresh u hu]
    exact ih (fun x hx => hpre x (by simp [hx])) _

/-! Claim theorems. -/

/-- Claim C1 (code bug): the claimed upsert of `Bot.add_response` never
happens.  Its SQL is two statements (a stray `;` inside the `DO UPDATE SET`
clause), which Python's sqlite3 rejects with `ProgrammingError` before
executing anything: calling `add_response("foo", "bar")` twice stores no
record at all and raises on both calls, contradicting the function's own
comment that it stores the response so it persists across restarts. -/
theorem add_response_upsert_never_persists :
    sqliteSingleStatement responses_upsert_sql = false ∧
    add_response [] "foo" "bar" = ([], .error .programmingError) ∧
    add_response (add_response [] "foo" "bar").1 "foo" "bar" =
      ([], .error .programmingError) :=
  ⟨rfl, rfl, rfl⟩

/-- Claim C2: `Bot.add_response` never returns normally — every invocation
ends in a raised exception (the `execute` raises `ProgrammingError`; had it
succeeded, `return resp` would raise `NameError`, `resp` being unbound) —
and `MyComponent.addcommand` therefore completes through its `except` branch,
replying with the failure message. -/
theorem add_response_never_returns_normally (t : List RespRow)
    (c r : String) :
    (∃ e, (add_response t c r).2 = .error e) ∧
    ∀ content cmd resp, pySplitOnce content = [cmd, resp] →
      (addcommand t content).replies = ["Failed to add command! :("] ∧
      (addcommand t content).raised = none := by
  constructor
  · exact ⟨.programmingError, by rw [add_response_eq]⟩
  · intro content cmd resp h
    simp [addcommand, h, add_response_eq]

/-- Claim C2, witness at the inputs command "foo", response "bar". -/
theorem add_response_never_returns_normally_witness :
    pySplitOnce "foo bar" = ["foo", "bar"] ∧
    (∃ e, (add_response [] "foo" "bar").2 = .error e) ∧
    (addcommand [] "foo bar").replies = ["Failed to add command! :("] :=
  ⟨rfl, (add_response_never_returns_normally [] "foo" "bar").1,
    ((add_response_never_returns_normally [] "foo" "bar").2
      "foo bar" "foo" "bar" rfl).1⟩

/-- Claim C5: two `Bot.add_token` calls whose pairs both validate to the same
`user_id` leave exactly one row in the `tokens` table under that id, holding
the second pair — the `ON CONFLICT(user_id) DO UPDATE` upsert is
last-write-wins.  The hypothesis on `st` is the `PRIMARY KEY` invariant: at
most one row per `user_id`. -/
theorem add_token_upsert_last_write_wins
    (v : String → String → Except PyErr String) (st : TokenState)
    (t1 r1 t2 r2 uid : String)
    (h1 : v t1 r1 = .ok uid) (h2 : v t2 r2 = .ok uid)
    (hpk : (st.tokens.filter (fun x => x.user_id == uid)).length ≤ 1) :
    (add_token v st t1 r1).2 = .ok uid ∧
    (add_token v (add_token v st t1 r1).1 t2 r2).2 = .ok uid ∧
    ((add_token v (add_token v st t1 r1).1 t2 r2).1).tokens.filter
      (fun x => x.user_id == uid) = [⟨uid, t2, r2⟩] := by
  rw [add_token_ok v st t1 r1 uid h1]
  have hfst : (tokensUpsert st.tokens ⟨uid, t1, r1⟩).filter
      (fun x => x.user_id == uid) = [⟨uid, t1, r1⟩] :=
    tokensUpsert_filter st.tokens uid t1 r1 hpk
  refine ⟨rfl, ?_, ?_⟩
  · rw [add_token_ok v _ t2 r2 uid h2]
  · rw [add_token_ok v _ t2 r2 uid h2]
    exact tokensUpsert_filter _ uid t2 r2 (by rw [hfst]; simp)

/-- Claim C5, witness: from the empty table, two validated calls for user
"u1" leave exactly the row of the second pair. -/
theorem add_token_upsert_last_write_wins_witness :
    constValidate "t1" "r1" = .ok "u1" ∧ constValidate "t2" "r2" = .ok "u1" ∧
    ((add_token constValidate
        (add_token constValidate ⟨[], []⟩ "t1" "r1").1 "t2" "r2").1).tokens.filter
      (fun x => x.user_id == "u1") = [⟨"u1", "t2", "r2"⟩] :=
  ⟨rfl, rfl,
    (add_token_upsert_last_write_wins constValidate ⟨[], []⟩
      "t1" "r1" "t2" "r2" "u1" rfl rfl (by decide)).2.2⟩

/-- Claim C6: when the upstream identity service rejects the pair,
`Bot.add_token` propagates the validation error raised inside
`super().add_token`, before any database access: the whole state — in
particular the `tokens` table — is unchanged, and no row is persisted. -/
theorem add_token_invalid_not_persisted
    (v : String → String → Except PyErr String) (st : TokenState)
    (token refresh : String) (e : PyErr) (h : v token refresh = .error e) :
    add_token v st token refresh = (st, .error e) := by
  simp [add_token, h]

/-- Claim C6, witness at the rejected pair ("badtok", "r1"). -/
theorem add_token_invalid_not_persisted_witness :
    exampleValidate "badtok" "r1" = .error .validationError ∧
    add_token exampleValidate ⟨[], [⟨"u", "t", "r"⟩]⟩ "badtok" "r1" =
      (⟨[], [⟨"u", "t", "r"⟩]⟩, .error .validationError) :=
  ⟨rfl, add_token_invalid_not_persisted exampleValidate
    ⟨[], [⟨"u", "t", "r"⟩]⟩ "badtok" "r1" .validationError rfl⟩

/-- Claim C9, counterexample: with a single persisted record,
`Bot.load_responses` does not reproduce the record anywhere — it calls
`add_response` on the first fetched row, which raises
`sqlite3.ProgrammingError`, aborting the reload (and the source has no
in-memory lookup table to populate in the first place). -/
theorem load_responses_single_record_fails :
    load_responses [⟨"foo", "bar"⟩] =
      ([⟨"foo", "bar"⟩], .error .programmingError) := rfl

/-- Claim C9, amended: `Bot.load_responses` re-invokes `add_response` on
every fetched row; since `add_response` always raises, the reload succeeds
only on an empty `responses` table and fails at the first record of any
nonempty one, leaving the table as it was; no in-memory lookup table exists
in the source. -/
theorem load_responses_reload_behavior :
    load_responses [] = ([], .ok ()) ∧
    ∀ (r : RespRow) (rs : List RespRow),
      load_responses (r :: rs) = (r :: rs, .error .programmingError) := by
  refine ⟨rfl, ?_⟩
  intro r rs
  simp [load_responses, loadResponsesGo, add_response_eq]

/-- Claim C10: `Bot.load_tokens` is not a pure read — it re-invokes
`add_token` on every stored row, re-registering each pair with the live
session (the `session` component grows by exactly the stored rows, in order)
and upserting each row's own values back into the `tokens` table; under the
precondition that the table satisfies its primary-key invariant and every
stored pair still validates to its stored `user_id`, that write-back is an
identity upsert, so the `tokens` table after `load_tokens` equals the table
before it. -/
theorem load_tokens_identity_upsert
    (v : String → String → Except PyErr String) (st : TokenState)
    (hpk : st.tokens.Pairwise fun a b => a.user_id ≠ b.user_id)
    (hval : ∀ r ∈ st.tokens, v r.token r.refresh = .ok r.user_id) :
    load_tokens v st = (⟨st.session ++ st.tokens, st.tokens⟩, .ok ()) := by
  unfold load_tokens
  exact loadTokensGo_identity v st.tokens st hval
    (fun r hr => tokensUpsert_mem st.tokens r hr hpk)

/-- Claim C10, witness: a one-row table whose pair validates to its stored
user id is written back unchanged, and the row is re-registered. -/
theorem load_tokens_identity_upsert_witness :
    ([⟨"u1", "t", "r"⟩] : List TokenRow).Pairwise
      (fun a b => a.user_id ≠ b.user_id) ∧
    load_tokens constValidate ⟨[], [⟨"u1", "t", "r"⟩]⟩ =
      (⟨[⟨"u1", "t", "r"⟩], [⟨"u1", "t", "r"⟩]⟩, .ok ()) := by
  refine ⟨by simp, ?_⟩
  exact load_tokens_identity_upsert constValidate ⟨[], [⟨"u1", "t", "r"⟩]⟩
    (by simp) (fun r hr => by
      simp only [List.mem_singleton] at hr
      subst hr
      rfl)

/-- Claim C3, counterexample: with the record ("foo", "bar") in the response
store, the message "!foo" produces no reply at all — the stored text is never
looked up (`CommandNotFound` is raised and logged), contradicting the claimed
dynamic fallback that would reply "bar". -/
theorem route_ignores_dynamic_command :
    route [⟨"foo", "bar"⟩] true "alice" "!foo" =
      ⟨[⟨"foo", "bar"⟩], [], some .commandNotFound⟩ ∧
    (route [⟨"foo", "bar"⟩] true "alice" "!foo").replies ≠ ["bar"] :=
  ⟨rfl, by decide⟩

/-- Claim C3, amended: static commands take precedence trivially — invoking
"!hi" always triggers the built-in greeting, whatever the response store
holds — but there is no dynamic dispatch at all: every invocation whose
command word matches no static command is a silent no-op (no reply, store
untouched, `CommandNotFound` logged), even when the store has a record for
that word; the response store is never consulted during routing. -/
theorem route_static_precedence_no_dynamic_dispatch
    (t : List RespRow) (elevated : Bool) (chatter : String) :
    (route t elevated chatter "!hi").replies =
      ["Hello " ++ mention chatter ++ "!"] ∧
    ∀ inv : List Char, commandNameOf inv ∉ staticNames →
      route t elevated chatter ⟨'!' :: inv⟩ =
        ⟨t, [], some .commandNotFound⟩ := by
  refine ⟨rfl, ?_⟩
  intro inv h
  show routeCmd t elevated chatter inv = _
  simp only [staticNames, List.mem_cons, List.not_mem_nil, or_false,
    not_or] at h
  obtain ⟨h1, h2, h3, h4, h5, h6⟩ := h
  simp [routeCmd, h1, h2, h3, h4, h5, h6]

/-- Claim C3, witness: the store holds ("foo", "bar"); "!hi" still greets,
and "!foo" — not a static name — is a silent no-op. -/
theorem route_static_precedence_no_dynamic_dispatch_witness :
    commandNameOf "foo".toList ∉ staticNames ∧
    (route [⟨"foo", "bar"⟩] true "bob" "!hi").replies =
      ["Hello " ++ mention "bob" ++ "!"] ∧
    route [⟨"foo", "bar"⟩] true "bob" ⟨'!' :: "foo".toList⟩ =
      ⟨[⟨"foo", "bar"⟩], [], some .commandNotFound⟩ :=
  ⟨by decide,
    (route_static_precedence_no_dynamic_dispatch [⟨"foo", "bar"⟩] true "bob").1,
    (route_static_precedence_no_dynamic_dispatch [⟨"foo", "bar"⟩] true "bob").2
      "foo".toList (by decide)⟩

/-- Claim C4, counterexample: two stored credentials, the first of which the
upstream now rejects — `Bot.load_tokens` propagates the validation error
(there is no per-record try/except), the reload aborts, and the other, valid
credential is never validated nor registered: its failure is not skipped. -/
theorem load_tokens_bad_token_aborts_reload :
    load_tokens exampleValidate ⟨[], [badRow, goodRow]⟩ =
      (⟨[], [badRow, goodRow]⟩, .error .validationError) ∧
    (load_tokens exampleValidate ⟨[], [badRow, goodRow]⟩).1.session = [] :=
  ⟨rfl, rfl⟩

/-- Claim C4, amended: `Bot.load_tokens` calls `add_token` on each fetched
row in order with no per-record error handling; a validation failure aborts
the reload at the failing row — rows before it have been registered, the
failing row and every later row are not, and the first error propagates out
of `load_tokens`. -/
theorem load_tokens_aborts_at_first_invalid
    (v : String → String → Except PyErr String) (st : TokenState)
    (pre post : List TokenRow) (bad : TokenRow) (e : PyErr)
    (hsplit : st.tokens = pre ++ bad :: post)
    (hpre : ∀ x ∈ pre, ∃ u, v x.token x.refresh = .ok u)
    (hbad : v bad.token bad.refresh = .error e) :
    load_tokens v st = ((loadTokensGo v pre st).1, .error e) := by
  unfold load_tokens
  rw [hsplit]
  exact loadTokensGo_abort v pre post bad e hpre hbad st

/-- Claim C4, witness: the valid row first, the rejected row second — the
reload aborts with the validation error after processing only the prefix. -/
theorem load_tokens_aborts_at_first_invalid_witness :
    exampleValidate badRow.token badRow.refresh = .error .validationError ∧
    load_tokens exampleValidate ⟨[], [goodRow, badRow]⟩ =
      ((loadTokensGo exampleValidate [goodRow] ⟨[], [goodRow, badRow]⟩).1,
        .error .validationError) :=
  ⟨rfl,
    load_tokens_aborts_at_first_invalid exampleValidate
      ⟨[], [goodRow, badRow]⟩ [goodRow] [] badRow .validationError rfl
      (fun x hx => by
        simp only [List.mem_singleton] at hx
        subst hx
        exact ⟨"id-goodtok", rfl⟩)
      rfl⟩

/-- Claim C7, counterexample: an elevated user sends "!addcommand foo" (no
response text).  No record named "foo" is created, but the rejection is not
user-visible: the handler raises `IndexError` at `content_array[1]` —
outside its `try` — so no reply is sent; the exception is merely logged by
the dispatcher. -/
theorem addcommand_missing_response_no_visible_error :
    route [] true "mod" "!addcommand foo" = ⟨[], [], some .indexError⟩ ∧
    (route [] true "mod" "!addcommand foo").replies = [] :=
  ⟨rfl, rfl⟩

/-- Claim C7, amended: for every `!addcommand` invocation whose argument is a
single word (no whitespace, hence an empty remainder after the split), the
handler raises `IndexError` before any store access: no record is created,
the store is returned unchanged, and no user-visible message is sent. -/
theorem addcommand_missing_response_raises_index_error
    (t : List RespRow) (chatter : String) (w : List Char)
    (hne : w ≠ []) (hns : pySplitOnceChars w = none) :
    route t true chatter ⟨'!' :: ("addcommand ".toList ++ w)⟩ =
      ⟨t, [], some .indexError⟩ := by
  show routeCmd t true chatter ("addcommand ".toList ++ w) = _
  have hname : commandNameOf ("addcommand ".toList ++ w) = "addcommand" := rfl
  have hrest : commandRestOf ("addcommand ".toList ++ w) = ⟨w⟩ := rfl
  have hw : (⟨w⟩ : String) ≠ "" := fun hc => hne (congrArg String.data hc)
  have htl : (⟨w⟩ : String).toList = w := rfl
  unfold routeCmd
  rw [hname, hrest]
  simp [addcommand, pySplitOnce, hw, htl, hns]

/-- Claim C7, witness at the message "!addcommand foo". -/
theorem addcommand_missing_response_raises_index_error_witness :
    (['f', 'o', 'o'] : List Char) ≠ [] ∧
    pySplitOnceChars ['f', 'o', 'o'] = none ∧
    route [] true "mod" ⟨'!' :: ("addcommand ".toList ++ ['f', 'o', 'o'])⟩ =
      ⟨[], [], some .indexError⟩ :=
  ⟨by decide, rfl,
    addcommand_missing_response_raises_index_error [] "mod" ['f', 'o', 'o']
      (by decide) rfl⟩

/-- Claim C8, counterexample: a non-elevated user sends
"!addcommand foo bar".  The store is not touched and nothing crashes, but the
invoker receives no denial response: the `is_elevated` guard raises
`GuardFailure`, which the dispatcher only logs — the reply list is empty. -/
theorem addcommand_unauthorized_no_denial_reply :
    route [] false "bob" "!addcommand foo bar" =
      ⟨[], [], some .guardFailure⟩ ∧
    (route [] false "bob" "!addcommand foo bar").replies = [] :=
  ⟨rfl, rfl⟩

/-- Claim C8, amended: for every `!addcommand` invocation by a non-elevated
user, the `commands.is_elevated` guard raises `GuardFailure` before the
handler runs: the response store after the event equals the store before it,
no crash escapes the dispatcher (the failure is contained and logged), and no
reply — in particular no denial message — is sent. -/
theorem addcommand_unauthorized_no_state_change
    (t : List RespRow) (chatter : String) (inv : List Char)
    (h : commandNameOf inv = "addcommand") :
    route t false chatter ⟨'!' :: inv⟩ = ⟨t, [], some .guardFailure⟩ := by
  show routeCmd t false chatter inv = _
  simp [routeCmd, h]

/-- Claim C8, witness at the message "!addcommand foo bar". -/
theorem addcommand_unauthorized_no_state_change_witness :
    commandNameOf "addcommand foo bar".toList = "addcommand" ∧
    route [⟨"old", "kept"⟩] false "bob"
        ⟨'!' :: "addcommand foo bar".toList⟩ =
      ⟨[⟨"old", "kept"⟩], [], some .guardFailure⟩ :=
  ⟨rfl, addcommand_unauthorized_no_state_change [⟨"old", "kept"⟩] "bob"
    "addcommand foo bar".toList rfl⟩

end PybotTwitch
